import Mathlib

/-!
# Web-Scraper: a shallow embedding of `webscraper.c`

The program is one C file: `WriteMemoryCallback` (the growable response
buffer), `scrape_url` (fetch, parse, query, write) and
`on_scrape_button_clicked` (the button handler).  The functions of libcurl,
libxml2, stdio and GTK that the file calls are not part of the program: every
outcome they can hand back is a field of `Env`, and the theorems hold for all
environments.

Conventions.
* A C string is a `List Char`, one `Char` per byte, without the terminating 0.
* `size_t` is 64 bits wide; its arithmetic is reduced modulo `SIZE_MOD`.
* A heap byte is a `Cell`: `none` is an indeterminate byte, one that `malloc`
  or `realloc` handed out and nobody has written yet.
* An operation with undefined behaviour (a write outside the block, a load
  through a null pointer, a null argument for `%s`) is a `fault`.
* A file is named by the string given to `fopen`; writes to an open stream and
  `fclose` succeed, so the text sent to the stream is the content of the file
  once the run returns.
-/

namespace WebScraper

set_option maxRecDepth 8000

/-- C string: the bytes before the terminating 0. -/
abbrev CString := List Char

/-- One byte of heap memory, `none` while it is indeterminate. -/
abbrev Cell := Option Char

/-- Number of values of `size_t` (`SIZE_MAX + 1`). -/
def SIZE_MOD : Nat := 2 ^ 64

/-- The line terminator written by `"%s\n"`. -/
def NL : Char := Char.ofNat 10

/-- The byte 0 stored behind the data. -/
def NUL : Char := Char.ofNat 0

/-- The struct `typedef struct { char *memory; size_t size; } MemoryStruct;`
`memory = none` is the null pointer, `some block` a live heap block. -/
structure MemoryStruct where
  memory : Option (List Cell)
  size : Nat
deriving DecidableEq, Repr

/-- Model of `malloc(n)`: a fresh block of `n` indeterminate bytes, or the null pointer
when the allocator fails. -/
def malloc (ok : Bool) (n : Nat) : Option (List Cell) :=
  if ok then some (List.replicate n none) else none

/-- Model of `realloc(p, n)`: on success a block of `n` bytes that keeps the old
block's bytes up to the smaller of the two sizes, the rest indeterminate
(`realloc(NULL, n)` is `malloc(n)`); on failure the null pointer, the old
block staying as it is. -/
def realloc (ok : Bool) (p : Option (List Cell)) (n : Nat) : Option (List Cell) :=
  if ok then some ((p.getD []).take n ++ List.replicate (n - (p.getD []).length) none)
  else none

/-- Model of `memcpy(&block[off], src, n)`: undefined (`none`) unless the `n` bytes
lie inside both the block and the source. -/
def memcpy (block : List Cell) (off : Nat) (src : List Char) (n : Nat) :
    Option (List Cell) :=
  if off + n ≤ block.length ∧ n ≤ src.length then
    some (block.take off ++ (src.take n).map some ++ block.drop (off + n))
  else none

/-- The assignment `block[i] = b`: undefined (`none`) outside the block. -/
def store (block : List Cell) (i : Nat) (b : Char) : Option (List Cell) :=
  if i < block.length then some (block.set i (some b)) else none

/-- Source function `WriteMemoryCallback(contents, size, nmemb, userp)` (lines 40-55).
`reallocOk` is the outcome of the `realloc` on line 44.  The result is the
returned `size_t` and the buffer after the call; `none` is undefined
behaviour (a write outside the reallocated block). -/
def WriteMemoryCallback (reallocOk : Bool) (contents : List Char) (size nmemb : Nat)
    (mem : MemoryStruct) : Option (Nat × MemoryStruct) :=
  let realsize := (size * nmemb) % SIZE_MOD
  match realloc reallocOk mem.memory ((mem.size + realsize + 1) % SIZE_MOD) with
  | none => some (0, mem)
  | some ptr =>
    match memcpy ptr mem.size contents realsize with
    | none => none
    | some copied =>
      let size1 := (mem.size + realsize) % SIZE_MOD
      match store copied size1 NUL with
      | none => none
      | some closed => some (realsize, { memory := some closed, size := size1 })

/-- One invocation of the write callback by the transfer: the chunk, its two
size arguments, and whether the `realloc` inside the call succeeds. -/
structure WriteCall where
  contents : List Char
  size : Nat
  nmemb : Nat
  reallocOk : Bool
deriving DecidableEq, Repr

/-- The buffer after a sequence of callback invocations, in order. -/
def runCallbacks : List WriteCall → MemoryStruct → Option MemoryStruct
  | [], mem => some mem
  | c :: cs, mem =>
    match WriteMemoryCallback c.reallocOk c.contents c.size c.nmemb mem with
    | none => none
    | some (_, mem1) => runCallbacks cs mem1

/-- The buffer `scrape_url` starts with (lines 61-63): `malloc(1)`, size 0. -/
def initialChunk (mallocOk : Bool) : MemoryStruct :=
  { memory := malloc mallocOk 1, size := 0 }

/-- The bytes the buffer holds: the first `size` bytes of the block. -/
def MemoryStruct.content (mem : MemoryStruct) : List Cell :=
  (mem.memory.getD []).take mem.size

/-- The byte at index `size` of the block, if the block has one. -/
def MemoryStruct.terminator (mem : MemoryStruct) : Option Cell :=
  (mem.memory.getD [])[mem.size]?

/-- Bytes accepted by the successful calls of a sequence: the sum of
`size * nmemb` over the calls whose allocation succeeded. -/
def bytesWritten : List WriteCall → Nat
  | [] => 0
  | c :: cs => (if c.reallocOk then c.size * c.nmemb else 0) + bytesWritten cs

/-- The chunks of the successful calls, concatenated in arrival order. -/
def chunksWritten : List WriteCall → List Char
  | [] => []
  | c :: cs => (if c.reallocOk then c.contents else []) ++ chunksWritten cs

/-- A call hands over exactly `size * nmemb` bytes. -/
def WriteCall.wellFormed (c : WriteCall) : Prop :=
  c.contents.length = c.size * c.nmemb

instance (c : WriteCall) : Decidable c.wellFormed := by
  unfold WriteCall.wellFormed; infer_instance

/-- The code `CURLE_OK`. -/
def CURLE_OK : Nat := 0

/-- What `curl_easy_perform` does in one run: the callback invocations it
makes, in order, and the `CURLcode` it returns. -/
structure Transfer where
  calls : List WriteCall
  res : Nat
deriving DecidableEq, Repr

/-- The struct `xmlXPathObject`, reduced to the field the program reads: `nodesetval`,
a pointer to the node set (`none` is the null pointer, `some nodes` a set
with `nodeNr = nodes.length` and `nodeTab = nodes`). -/
structure XPathObject (Node : Type) where
  nodesetval : Option (List Node)
deriving DecidableEq

/-- The file system: the content of each named file, `none` when there is no
such file. -/
abbrev FileSystem := CString → Option CString

/-- Everything the library calls of one run hand back to the program. -/
structure Env (Doc Node : Type) where
  /-- Outcome of `malloc(1)` on line 62. -/
  mallocOk : Bool
  /-- Result of `curl_easy_perform` for the handle set up with the given URL. -/
  curl_easy_perform : CString → Transfer
  /-- Result of `curl_easy_strerror`. -/
  curl_easy_strerror : Nat → CString
  /-- Result of `htmlReadMemory(buffer, size, ...)`, `none` for a null document. -/
  htmlReadMemory : Option (List Cell) → Int → Option Doc
  /-- Result of `xmlXPathEvalExpression(str, ctx)` on a context of the document,
  `none` for a null object. -/
  xmlXPathEvalExpression : CString → Doc → Option (XPathObject Node)
  /-- Result of `xmlNodeGetContent`, `none` for a null string. -/
  xmlNodeGetContent : Node → Option CString
  /-- Whether `fopen(filename, "w")` succeeds in the given file system. -/
  fopen_w : FileSystem → CString → Bool
  /-- The text `perror` appends for the `errno` of a failed `fopen`. -/
  strerror_errno : FileSystem → CString → CString

/-- What can be observed of the program from outside. -/
structure World where
  /-- The files. -/
  fs : FileSystem
  /-- The messages written to `stderr`, oldest first. -/
  stderr : List CString
  /-- The expressions passed to `xmlXPathEvalExpression`, oldest first. -/
  evaluated : List CString
  /-- The texts of the message dialogs shown, oldest first. -/
  dialogs : List CString

/-- How a call ends: it returns, leaving a world, or the process dies on
undefined behaviour.  Of a dead process the model keeps only the expressions
it had passed to the evaluator. -/
inductive Run where
  | returned (w : World)
  | fault (evaluated : List CString)

/-- The expressions passed to the evaluator by the end of a run. -/
def Run.evaluated : Run → List CString
  | .returned w => w.evaluated
  | .fault ev => ev

/-- The content of a file after a run that returned. -/
def Run.file (r : Run) (name : CString) : Option CString :=
  match r with
  | .returned w => w.fs name
  | .fault _ => none

/-- Conversion of a `size_t` to the `int` parameter of `htmlReadMemory`
(32 bits, two's complement). -/
def toInt (n : Nat) : Int :=
  if n % 2 ^ 32 < 2 ^ 31 then ((n % 2 ^ 32 : Nat) : Int)
  else ((n % 2 ^ 32 : Nat) : Int) - 2 ^ 32

/-- Line 86, `snprintf(xpathExpr, bufsize, "//%s", tag)`: the string left in the
buffer, at most `bufsize - 1` bytes of the formatted text. -/
def snprintf_xpath (bufsize : Nat) (tag : CString) : CString :=
  ("//".toList ++ tag).take (bufsize - 1)

/-- Value of `sizeof(xpathExpr)` for `char xpathExpr[256]`. -/
def XPATH_EXPR_SIZE : Nat := 256

/-- The loop of lines 97-101 on the stream opened on line 92: for each node
of the set, in order, `fprintf(file, "%s\n", content)`.  `file` is the text
sent to the stream so far; `none` is a null `content` given to `%s`. -/
def writeNodes {Node : Type} (xmlNodeGetContent : Node → Option CString) :
    List Node → CString → Option CString
  | [], file => some file
  | node :: rest, file =>
    match xmlNodeGetContent node with
    | none => none
    | some content => writeNodes xmlNodeGetContent rest (file ++ content ++ [NL])

/-- The file system after `name` has been written with `text`. -/
def writeFile (fs : FileSystem) (name text : CString) : FileSystem :=
  fun f => if f = name then some text else fs f

/-- Source function `scrape_url(url, tag, filename)` (lines 57-114). -/
def scrape_url {Doc Node : Type} (env : Env Doc Node) (url tag filename : CString)
    (w : World) : Run :=
  match runCallbacks (env.curl_easy_perform url).calls (initialChunk env.mallocOk) with
  | none => .fault w.evaluated
  | some chunk =>
    if (env.curl_easy_perform url).res ≠ CURLE_OK then
      .returned { w with stderr := w.stderr ++
        ["curl_easy_perform() failed: ".toList
          ++ env.curl_easy_strerror (env.curl_easy_perform url).res ++ [NL]] }
    else
      match env.htmlReadMemory chunk.memory (toInt chunk.size) with
      | none => .returned { w with stderr := w.stderr ++ ["Failed to parse HTML".toList ++ [NL]] }
      | some doc =>
        let xpathExpr := snprintf_xpath XPATH_EXPR_SIZE tag
        let ev := w.evaluated ++ [xpathExpr]
        match env.xmlXPathEvalExpression xpathExpr doc with
        | none =>
          .returned { w with evaluated := ev,
                             stderr := w.stderr ++ ["Failed to evaluate XPath".toList ++ [NL]] }
        | some xpathObj =>
          if env.fopen_w w.fs filename then
            match xpathObj.nodesetval with
            | none => .fault ev
            | some nodes =>
              match writeNodes env.xmlNodeGetContent nodes [] with
              | none => .fault ev
              | some text => .returned { w with evaluated := ev,
                                                fs := writeFile w.fs filename text }
          else
            .returned { w with evaluated := ev,
                               stderr := w.stderr ++
                                 ["fopen: ".toList ++ env.strerror_errno w.fs filename ++ [NL]] }

/-- The text of the dialog of line 124. -/
def SCRAPING_COMPLETE : CString := "Scraping complete!".toList

/-- Source function `on_scrape_button_clicked` (lines 116-127); `url`, `tag` and `filename`
are the texts of the three entries. -/
def on_scrape_button_clicked {Doc Node : Type} (env : Env Doc Node)
    (url tag filename : CString) (w : World) : Run :=
  match scrape_url env url tag filename w with
  | .fault ev => .fault ev
  | .returned w1 => .returned { w1 with dialogs := w1.dialogs ++ [SCRAPING_COMPLETE] }

/-- The text of a file whose lines are `ts`: every value followed by one
line terminator. -/
def linesOf (ts : List CString) : CString :=
  (ts.map (fun t => t ++ [NL])).flatten

/-- Number of lines of a file: the number of line terminators in it. -/
def lineCount (file : CString) : Nat :=
  file.count NL

/-! ### Concrete environments -/

/-- A world with no file and nothing emitted. -/
def emptyWorld : World :=
  { fs := fun _ => none, stderr := [], evaluated := [], dialogs := [] }

/-- A transfer that delivers `body` in one chunk and returns `res`. -/
def oneChunk (body : CString) (res : Nat) : Transfer :=
  { calls := [{ contents := body, size := 1, nmemb := body.length, reallocOk := true }],
    res := res }

/-- An environment for a page with the given body, in which the evaluator
answers `answer` and each node `n` has the `n`-th of `texts` as content.
Documents are the parsed body itself; a body is parsed when `parses` holds;
every file can be opened. -/
def pageEnv (body : CString) (res : Nat) (parses : Bool)
    (answer : CString → Option (XPathObject Nat)) (texts : List CString) :
    Env CString Nat :=
  { mallocOk := true
    curl_easy_perform := fun _ => oneChunk body res
    curl_easy_strerror := fun _ => "error".toList
    htmlReadMemory := fun block size =>
      if parses ∧ block = some (body.map some ++ [some NUL]) ∧ size = body.length
      then some body else none
    xmlXPathEvalExpression := fun expr _ => answer expr
    xmlNodeGetContent := fun n => texts[n]?
    fopen_w := fun _ _ => true
    strerror_errno := fun _ _ => "Permission denied".toList }

/-- The page of the round-trip scenario. -/
def alphaBeta : CString :=
  "<html><body><p>Alpha</p><p>Beta</p></body></html>".toList

/-- The evaluator of the round-trip scenario: `//p` matches nodes 0 and 1,
any other expression matches nothing. -/
def alphaBetaAnswer (expr : CString) : Option (XPathObject Nat) :=
  if expr = "//p".toList then some { nodesetval := some [0, 1] }
  else some { nodesetval := some [] }

/-- The environment of the round-trip scenario. -/
def alphaBetaEnv : Env CString Nat :=
  pageEnv alphaBeta CURLE_OK true alphaBetaAnswer ["Alpha".toList, "Beta".toList]

/-- The buffer after the transfer of the round-trip scenario. -/
def alphaBetaChunk : MemoryStruct :=
  { memory := some (alphaBeta.map some ++ [some NUL]), size := alphaBeta.length }

/-- The name of the output file in the scenarios. -/
def outTxt : CString := "out.txt".toList

/-- A call whose allocation fails. -/
def failedCall : WriteCall :=
  { contents := "ab".toList, size := 1, nmemb := 2, reallocOk := false }

/-- A call whose allocation succeeds. -/
def goodCall : WriteCall :=
  { contents := "cde".toList, size := 1, nmemb := 3, reallocOk := true }

/-- A page with one paragraph whose text holds a line terminator. -/
def twoLinePage : CString := "<p>A\nB</p>".toList

/-- The environment for `twoLinePage`: every expression matches node 0, the
paragraph, whose text is `A`, a line terminator, `B`. -/
def twoLineEnv : Env CString Nat :=
  pageEnv twoLinePage CURLE_OK true (fun _ => some { nodesetval := some [0] }) ["A\nB".toList]

/-- The evaluator of the injection scenarios on the round-trip page: the
union `//p|//b` matches the two paragraphs, the malformed `//a]//*` gives no
object, any other expression matches nothing. -/
def injectionAnswer (expr : CString) : Option (XPathObject Nat) :=
  if expr = "//p|//b".toList then some { nodesetval := some [0, 1] }
  else if expr = "//a]//*".toList then none
  else some { nodesetval := some [] }

/-- The environment of the injection scenarios. -/
def injectionEnv : Env CString Nat :=
  pageEnv alphaBeta CURLE_OK true injectionAnswer ["Alpha".toList, "Beta".toList]

/-- The code `CURLE_COULDNT_RESOLVE_HOST`. -/
def CURLE_COULDNT_RESOLVE_HOST : Nat := 6

/-- An environment whose transfer fails before any byte arrives. -/
def unreachableEnv : Env CString Nat :=
  { alphaBetaEnv with
    curl_easy_perform := fun _ => { calls := [], res := CURLE_COULDNT_RESOLVE_HOST } }

/-- An environment whose parser returns no document for the body received. -/
def garbageEnv : Env CString Nat :=
  pageEnv "%PDF".toList CURLE_OK false alphaBetaAnswer []

/-- The buffer after the transfer of `garbageEnv`. -/
def garbageChunk : MemoryStruct :=
  { memory := some ("%PDF".toList.map some ++ [some NUL]), size := 4 }

/-- An environment whose evaluator represents the empty result by an object
with a null node set. -/
def absentSetEnv : Env CString Nat :=
  pageEnv alphaBeta CURLE_OK true (fun _ => some { nodesetval := none }) []

/-- A world in which the output file exists and holds an older text. -/
def staleWorld : World :=
  { emptyWorld with fs := writeFile emptyWorld.fs outTxt "old text".toList }

/-- A tag of 254 bytes. -/
def longTag : CString := List.replicate 254 'a'

/-! ### The response buffer -/

theorem realloc_true (p : Option (List Cell)) (n : Nat) :
    realloc true p n
      = some ((p.getD []).take n ++ List.replicate (n - (p.getD []).length) none) := by
  simp [realloc]

theorem realloc_false (p : Option (List Cell)) (n : Nat) : realloc false p n = none := by
  simp [realloc]

/-- A successful call on a buffer whose block holds at least `size` bytes,
for a chunk of `size * nmemb` bytes that fits `size_t`: the value returned and
the buffer left behind, in closed form. -/
theorem WriteMemoryCallback_success (contents : List Char) (size nmemb : Nat)
    (mem : MemoryStruct)
    (hwf : mem.size ≤ (mem.memory.getD []).length)
    (hlen : contents.length = size * nmemb)
    (hfit : mem.size + size * nmemb + 1 < SIZE_MOD) :
    WriteMemoryCallback true contents size nmemb mem
      = some (size * nmemb,
          { memory := some (mem.content ++ contents.map some ++ [some NUL]),
            size := mem.size + size * nmemb }) := by
  generalize hrs : size * nmemb = rs at hlen hfit ⊢
  have h1 : rs % SIZE_MOD = rs := Nat.mod_eq_of_lt (by omega)
  have h2 : (mem.size + rs + 1) % SIZE_MOD = mem.size + rs + 1 := Nat.mod_eq_of_lt hfit
  have h3 : (mem.size + rs) % SIZE_MOD = mem.size + rs := Nat.mod_eq_of_lt (by omega)
  unfold WriteMemoryCallback
  simp only [hrs, h1, h2, h3, realloc_true]
  generalize hold : mem.memory.getD [] = old at hwf
  have hcontent : mem.content = old.take mem.size := by simp [MemoryStruct.content, hold]
  set ptr := old.take (mem.size + rs + 1)
      ++ List.replicate (mem.size + rs + 1 - old.length) none with hptr
  have hptrlen : ptr.length = mem.size + rs + 1 := by
    simp [hptr, List.length_take]; omega
  have hptrtake : ptr.take mem.size = old.take mem.size := by
    rw [hptr, List.take_append_of_le_length (by simp [List.length_take]; omega),
      List.take_take]
    congr 1
    omega
  have hcopy : memcpy ptr mem.size contents rs
      = some (old.take mem.size ++ contents.map some ++ ptr.drop (mem.size + rs)) := by
    unfold memcpy
    rw [if_pos ⟨by omega, by omega⟩, hptrtake, ← hlen, List.take_length]
  rw [hcopy]
  obtain ⟨last, hlast⟩ : ∃ last, ptr.drop (mem.size + rs) = [last] := by
    have : (ptr.drop (mem.size + rs)).length = 1 := by simp [hptrlen]
    exact List.length_eq_one.mp this
  have hstore : store (old.take mem.size ++ contents.map some ++ [last]) (mem.size + rs) NUL
      = some (old.take mem.size ++ contents.map some ++ [some NUL]) := by
    have hl : (old.take mem.size ++ contents.map some).length = mem.size + rs := by
      simp [List.length_take, hlen]; omega
    unfold store
    rw [if_pos (by simp [List.length_take, hlen]; omega)]
    congr 1
    rw [← hl, List.set_append_right _ _ (le_refl _)]
    simp
  simp only [hlast, hstore, hcontent]

/-- A failed call: nothing is returned and the buffer is the one it was. -/
theorem WriteMemoryCallback_failure (contents : List Char) (size nmemb : Nat)
    (mem : MemoryStruct) :
    WriteMemoryCallback false contents size nmemb mem = some (0, mem) := by
  simp [WriteMemoryCallback, realloc_false]

theorem content_length (mem : MemoryStruct)
    (hwf : mem.size ≤ (mem.memory.getD []).length) : mem.content.length = mem.size := by
  simp [MemoryStruct.content, List.length_take]; omega

/-- The buffer a successful call leaves: its content, its terminator and
the size of its block. -/
theorem grown_buffer (contents : List Char) (rs : Nat) (mem : MemoryStruct)
    (hwf : mem.size ≤ (mem.memory.getD []).length) (hlen : contents.length = rs) :
    let mem1 : MemoryStruct :=
      { memory := some (mem.content ++ contents.map some ++ [some NUL]),
        size := mem.size + rs }
    mem1.content = mem.content ++ contents.map some
      ∧ mem1.terminator = some (some NUL)
      ∧ mem1.size ≤ (mem1.memory.getD []).length := by
  have hc := content_length mem hwf
  have hl : (mem.content ++ contents.map some).length = mem.size + rs := by
    simp [hc, hlen]
  refine ⟨?_, ?_, ?_⟩
  · show List.take (mem.size + rs) (mem.content ++ contents.map some ++ [some NUL]) = _
    rw [← hl, List.take_left]
  · show (mem.content ++ contents.map some ++ [some NUL])[mem.size + rs]? = _
    rw [← hl, List.getElem?_append_right (le_refl _)]
    simp
  · show mem.size + rs ≤ (mem.content ++ contents.map some ++ [some NUL]).length
    rw [List.length_append, hl]
    omega

/-- The buffer after any sequence of well-formed calls that fits `size_t`,
from a buffer whose block holds at least `size` bytes: the run is defined,
the size has grown by the bytes of the successful calls, the content by their
chunks in order, and the terminator is in place once it was or a call has
succeeded. -/
theorem runCallbacks_spec (calls : List WriteCall) :
    ∀ mem : MemoryStruct,
      mem.size ≤ (mem.memory.getD []).length →
      (∀ c ∈ calls, c.wellFormed) →
      mem.size + bytesWritten calls + 1 < SIZE_MOD →
      ∃ mem1, runCallbacks calls mem = some mem1
        ∧ mem1.size = mem.size + bytesWritten calls
        ∧ mem1.content = mem.content ++ (chunksWritten calls).map some
        ∧ mem1.size ≤ (mem1.memory.getD []).length
        ∧ ((mem.terminator = some (some NUL) ∨ ∃ c ∈ calls, c.reallocOk = true) →
            mem1.terminator = some (some NUL)) := by
  induction calls with
  | nil =>
    intro mem hwf _ _
    refine ⟨mem, rfl, by simp [bytesWritten], by simp [chunksWritten], hwf, ?_⟩
    rintro (h | ⟨c, hc, _⟩)
    · exact h
    · cases hc
  | cons c cs ih =>
    intro mem hwf hcalls hfit
    have hc : c.contents.length = c.size * c.nmemb := hcalls c (List.mem_cons_self _ _)
    have hcs : ∀ d ∈ cs, d.wellFormed := fun d hd => hcalls d (List.mem_cons_of_mem _ hd)
    cases hok : c.reallocOk with
    | false =>
      simp only [bytesWritten, hok, Bool.false_eq_true, if_false, Nat.zero_add] at hfit
      obtain ⟨mem1, hrun, hsize, hcontent, hwf1, hterm⟩ := ih mem hwf hcs hfit
      refine ⟨mem1, ?_, ?_, ?_, hwf1, ?_⟩
      · simp [runCallbacks, hok, WriteMemoryCallback_failure, hrun]
      · simp [bytesWritten, hok, hsize]
      · simp [chunksWritten, hok, hcontent]
      · rintro (h | ⟨d, hd, hdok⟩)
        · exact hterm (Or.inl h)
        · rcases List.mem_cons.mp hd with rfl | hd
          · rw [hok] at hdok; cases hdok
          · exact hterm (Or.inr ⟨d, hd, hdok⟩)
    | true =>
      simp only [bytesWritten, hok, if_true] at hfit
      have hfit0 : mem.size + c.size * c.nmemb + 1 < SIZE_MOD := by omega
      obtain ⟨hcontent0, hterm0, hwf0⟩ := grown_buffer c.contents (c.size * c.nmemb) mem hwf hc
      obtain ⟨mem1, hrun, hsize, hcontent, hwf1, hterm⟩ :=
        ih { memory := some (mem.content ++ c.contents.map some ++ [some NUL]),
             size := mem.size + c.size * c.nmemb } hwf0 hcs (by show _ + _ + _ + 1 < _; omega)
      refine ⟨mem1, ?_, ?_, ?_, hwf1, ?_⟩
      · have hs := WriteMemoryCallback_success c.contents c.size c.nmemb mem hwf hc hfit0
        simp only [runCallbacks, hok, hs]
        exact hrun
      · rw [hsize]; simp [bytesWritten, hok]; omega
      · rw [hcontent, hcontent0]; simp [chunksWritten, hok]
      · intro _
        exact hterm (Or.inl hterm0)

/-- The invariant of the block holds for the buffer `scrape_url` starts
with, whether `malloc(1)` succeeded or not. -/
theorem initialChunk_block (mallocOk : Bool) :
    (initialChunk mallocOk).size ≤ ((initialChunk mallocOk).memory.getD []).length := by
  simp [initialChunk]

/-! ### The output loop -/

/-- The loop appends to the stream the text of each node followed by one
line terminator, in the order of the node set. -/
theorem writeNodes_spec {Node : Type} (get : Node → Option CString) :
    ∀ (nodes : List Node) (ts : List CString) (file : CString),
      nodes.map get = ts.map some →
      writeNodes get nodes file = some (file ++ linesOf ts) := by
  intro nodes
  induction nodes with
  | nil =>
    intro ts file h
    cases ts with
    | nil => simp [writeNodes, linesOf]
    | cons t ts => simp at h
  | cons n ns ih =>
    intro ts file h
    cases ts with
    | nil => simp at h
    | cons t ts =>
      simp only [List.map_cons, List.cons.injEq] at h
      obtain ⟨hn, hns⟩ := h
      simp only [writeNodes, hn]
      rw [ih ts _ hns]
      simp [linesOf]

/-- Lines of a file written from values that hold no line terminator: one
per value. -/
theorem lineCount_linesOf (ts : List CString) (h : ∀ t ∈ ts, NL ∉ t) :
    lineCount (linesOf ts) = ts.length := by
  induction ts with
  | nil => simp [lineCount, linesOf]
  | cons t ts ih =>
    have ht : List.count NL t = 0 := List.count_eq_zero.mpr (h t (List.mem_cons_self _ _))
    have hts := ih (fun u hu => h u (List.mem_cons_of_mem _ hu))
    simp only [lineCount, linesOf] at hts ⊢
    simp only [List.map_cons, List.flatten_cons, List.count_append, ht, hts, List.length_cons]
    simp
    omega

/-! ### `scrape_url` stage by stage -/

/-- A run whose transfer completed with `CURLE_OK` and whose buffer parsed to
`doc`: what is left is the evaluation of the expression and the output. -/
theorem scrape_url_parsed {Doc Node : Type} (env : Env Doc Node)
    (url tag filename : CString) (w : World) (chunk : MemoryStruct) (doc : Doc)
    (hbuf : runCallbacks (env.curl_easy_perform url).calls (initialChunk env.mallocOk)
      = some chunk)
    (hres : (env.curl_easy_perform url).res = CURLE_OK)
    (hdoc : env.htmlReadMemory chunk.memory (toInt chunk.size) = some doc) :
    scrape_url env url tag filename w =
      match env.xmlXPathEvalExpression (snprintf_xpath XPATH_EXPR_SIZE tag) doc with
      | none =>
        .returned { w with evaluated := w.evaluated ++ [snprintf_xpath XPATH_EXPR_SIZE tag],
                           stderr := w.stderr ++ ["Failed to evaluate XPath".toList ++ [NL]] }
      | some xpathObj =>
        if env.fopen_w w.fs filename then
          match xpathObj.nodesetval with
          | none => .fault (w.evaluated ++ [snprintf_xpath XPATH_EXPR_SIZE tag])
          | some nodes =>
            match writeNodes env.xmlNodeGetContent nodes [] with
            | none => .fault (w.evaluated ++ [snprintf_xpath XPATH_EXPR_SIZE tag])
            | some text =>
              .returned { w with evaluated := w.evaluated ++ [snprintf_xpath XPATH_EXPR_SIZE tag],
                                 fs := writeFile w.fs filename text }
        else
          .returned { w with evaluated := w.evaluated ++ [snprintf_xpath XPATH_EXPR_SIZE tag],
                             stderr := w.stderr ++
                               ["fopen: ".toList ++ env.strerror_errno w.fs filename ++ [NL]] } := by
  unfold scrape_url
  simp only [hbuf, hres, hdoc, ne_eq, not_true_eq_false, if_false]

/-- A run that got its object and opened the file, on a present node set
whose nodes all have a text: the file written. -/
theorem scrape_url_output {Doc Node : Type} (env : Env Doc Node)
    (url tag filename : CString) (w : World) (chunk : MemoryStruct) (doc : Doc)
    (obj : XPathObject Node) (nodes : List Node) (ts : List CString)
    (hbuf : runCallbacks (env.curl_easy_perform url).calls (initialChunk env.mallocOk)
      = some chunk)
    (hres : (env.curl_easy_perform url).res = CURLE_OK)
    (hdoc : env.htmlReadMemory chunk.memory (toInt chunk.size) = some doc)
    (hobj : env.xmlXPathEvalExpression (snprintf_xpath XPATH_EXPR_SIZE tag) doc = some obj)
    (hopen : env.fopen_w w.fs filename = true)
    (hnodes : obj.nodesetval = some nodes)
    (htexts : nodes.map env.xmlNodeGetContent = ts.map some) :
    scrape_url env url tag filename w =
      .returned { w with evaluated := w.evaluated ++ [snprintf_xpath XPATH_EXPR_SIZE tag],
                         fs := writeFile w.fs filename (linesOf ts) } := by
  rw [scrape_url_parsed env url tag filename w chunk doc hbuf hres hdoc]
  simp only [hobj, hopen, if_true, hnodes, writeNodes_spec _ nodes ts [] htexts, List.nil_append]

/-- The expression that reaches the evaluator: once the transfer is
`CURLE_OK` and the document is parsed, every run, returning or faulting, has
passed exactly the expression built on line 86. -/
theorem scrape_url_evaluated {Doc Node : Type} (env : Env Doc Node)
    (url tag filename : CString) (w : World) (chunk : MemoryStruct) (doc : Doc)
    (hbuf : runCallbacks (env.curl_easy_perform url).calls (initialChunk env.mallocOk)
      = some chunk)
    (hres : (env.curl_easy_perform url).res = CURLE_OK)
    (hdoc : env.htmlReadMemory chunk.memory (toInt chunk.size) = some doc) :
    (scrape_url env url tag filename w).evaluated
        = w.evaluated ++ [snprintf_xpath XPATH_EXPR_SIZE tag] := by
  rw [scrape_url_parsed env url tag filename w chunk doc hbuf hres hdoc]
  rcases he : env.xmlXPathEvalExpression (snprintf_xpath XPATH_EXPR_SIZE tag) doc
    with _ | obj
  · rfl
  · rcases ho : env.fopen_w w.fs filename with _ | _
    · simp [Run.evaluated]
    · rcases hn : obj.nodesetval with _ | nodes
      · simp [Run.evaluated, hn]
      · rcases hw : writeNodes env.xmlNodeGetContent nodes [] with _ | text <;>
          simp [Run.evaluated, hn, hw]

/-- A tag of at most 253 bytes fits the 256-byte buffer behind the two
slashes. -/
theorem snprintf_xpath_short (tag : CString) (hlen : tag.length ≤ 253) :
    snprintf_xpath XPATH_EXPR_SIZE tag = "//".toList ++ tag := by
  unfold snprintf_xpath XPATH_EXPR_SIZE
  apply List.take_of_length_le
  simp
  omega

/-- A run that fails at the parser, whatever the world it starts in. -/
theorem scrape_url_unparsed {Doc Node : Type} (env : Env Doc Node)
    (url tag filename : CString) (w : World) (chunk : MemoryStruct)
    (hbuf : runCallbacks (env.curl_easy_perform url).calls (initialChunk env.mallocOk)
      = some chunk)
    (hres : (env.curl_easy_perform url).res = CURLE_OK)
    (hdoc : env.htmlReadMemory chunk.memory (toInt chunk.size) = none) :
    scrape_url env url tag filename w
      = .returned { w with stderr := w.stderr ++ ["Failed to parse HTML".toList ++ [NL]] } := by
  unfold scrape_url
  simp only [hbuf, hres, hdoc, ne_eq, not_true_eq_false, if_false]

/-- A run that fails at the transfer, whatever the world it starts in. -/
theorem scrape_url_unfetched {Doc Node : Type} (env : Env Doc Node)
    (url tag filename : CString) (w : World) (chunk : MemoryStruct)
    (hbuf : runCallbacks (env.curl_easy_perform url).calls (initialChunk env.mallocOk)
      = some chunk)
    (hres : (env.curl_easy_perform url).res ≠ CURLE_OK) :
    scrape_url env url tag filename w
      = .returned { w with stderr := w.stderr ++
          ["curl_easy_perform() failed: ".toList
            ++ env.curl_easy_strerror (env.curl_easy_perform url).res ++ [NL]] } := by
  unfold scrape_url
  simp only [hbuf, ne_eq, hres, not_false_eq_true, if_true]

/-- A run that returns leaves the dialogs as they were. -/
theorem scrape_url_keeps_dialogs {Doc Node : Type} (env : Env Doc Node)
    (url tag filename : CString) (w w1 : World)
    (h : scrape_url env url tag filename w = .returned w1) : w1.dialogs = w.dialogs := by
  rcases hb : runCallbacks (env.curl_easy_perform url).calls (initialChunk env.mallocOk)
    with _ | chunk
  · simp [scrape_url, hb] at h
  · by_cases hres : (env.curl_easy_perform url).res = CURLE_OK
    · rcases hd : env.htmlReadMemory chunk.memory (toInt chunk.size) with _ | doc
      · rw [scrape_url_unparsed env url tag filename w chunk hb hres hd] at h
        cases h
        rfl
      · rw [scrape_url_parsed env url tag filename w chunk doc hb hres hd] at h
        rcases he : env.xmlXPathEvalExpression (snprintf_xpath XPATH_EXPR_SIZE tag) doc
          with _ | obj
        · simp only [he] at h
          cases h
          rfl
        · rcases ho : env.fopen_w w.fs filename with _ | _
          · simp only [he, ho, Bool.false_eq_true, if_false] at h
            cases h
            rfl
          · rcases hn : obj.nodesetval with _ | nodes
            · simp [he, ho, hn] at h
            · rcases hw : writeNodes env.xmlNodeGetContent nodes [] with _ | text
              · simp [he, ho, hn, hw] at h
              · simp only [he, ho, hn, hw, if_true] at h
                cases h
                rfl
    · rw [scrape_url_unfetched env url tag filename w chunk hb hres] at h
      cases h
      rfl

theorem writeFile_twice (fs : FileSystem) (name text : CString) :
    writeFile (writeFile fs name text) name text = writeFile fs name text := by
  funext f
  by_cases hf : f = name <;> simp [writeFile, hf]

/-! ### The claims -/

/-- C10: `WriteMemoryCallback` is all-or-nothing on each chunk.  For every
buffer whose block holds its `size` bytes and every chunk of `size * nmemb`
bytes that fits `size_t`, either the allocation succeeds, the call returns
`size * nmemb` and the new content is the old content followed by the chunk,
or the allocation fails, the call returns 0 and the buffer is unchanged.
Hence after any sequence of calls from the initial buffer the content is the
concatenation, in arrival order, of the chunks of the calls that succeeded. -/
theorem WriteMemoryCallback_all_or_nothing :
    (∀ (reallocOk : Bool) (contents : List Char) (size nmemb : Nat) (mem : MemoryStruct),
      mem.size ≤ (mem.memory.getD []).length →
      contents.length = size * nmemb →
      mem.size + size * nmemb + 1 < SIZE_MOD →
      (reallocOk = true ∧
        ∃ mem1, WriteMemoryCallback reallocOk contents size nmemb mem
            = some (size * nmemb, mem1)
          ∧ mem1.content = mem.content ++ contents.map some
          ∧ mem1.size = mem.size + size * nmemb)
      ∨ (reallocOk = false ∧
        WriteMemoryCallback reallocOk contents size nmemb mem = some (0, mem)))
    ∧ (∀ (mallocOk : Bool) (calls : List WriteCall),
      (∀ c ∈ calls, c.wellFormed) →
      bytesWritten calls + 1 < SIZE_MOD →
      ∃ mem, runCallbacks calls (initialChunk mallocOk) = some mem
        ∧ mem.content = (chunksWritten calls).map some) := by
  constructor
  · intro reallocOk contents size nmemb mem hwf hlen hfit
    cases reallocOk with
    | true =>
      left
      refine ⟨rfl, _, WriteMemoryCallback_success contents size nmemb mem hwf hlen hfit, ?_, rfl⟩
      exact (grown_buffer contents (size * nmemb) mem hwf hlen).1
    | false =>
      right
      exact ⟨rfl, WriteMemoryCallback_failure contents size nmemb mem⟩
  · intro mallocOk calls hcalls hfit
    obtain ⟨mem, hrun, _, hcontent, _, _⟩ :=
      runCallbacks_spec calls (initialChunk mallocOk) (initialChunk_block mallocOk) hcalls
        (by simpa [initialChunk] using hfit)
    refine ⟨mem, hrun, ?_⟩
    rw [hcontent]
    simp [MemoryStruct.content, initialChunk]

/-- Witness of C10: a successful call and a failed call on the initial
buffer, and the sequence of the two. -/
theorem WriteMemoryCallback_all_or_nothing_witness :
    ((true = true ∧
        ∃ mem1, WriteMemoryCallback true "cde".toList 1 3 (initialChunk true) = some (1 * 3, mem1)
          ∧ mem1.content = (initialChunk true).content ++ "cde".toList.map some
          ∧ mem1.size = (initialChunk true).size + 1 * 3)
      ∨ (true = false ∧
        WriteMemoryCallback true "cde".toList 1 3 (initialChunk true)
          = some (0, initialChunk true)))
    ∧ (∃ mem, runCallbacks [failedCall, goodCall] (initialChunk true) = some mem
        ∧ mem.content = (chunksWritten [failedCall, goodCall]).map some) :=
  ⟨WriteMemoryCallback_all_or_nothing.1 true "cde".toList 1 3 (initialChunk true)
      (by decide) (by decide) (by decide),
    WriteMemoryCallback_all_or_nothing.2 true [failedCall, goodCall]
      (by decide) (by decide)⟩

/-- C7, as stated, fails: from the initial buffer, with no call made or
after a call whose allocation failed, `size` is 0 and equals the bytes
written, but the byte at index `size` is the byte `malloc(1)` handed out,
which the program has never written: it is indeterminate, not the 0 that
line 52 stores. -/
theorem terminator_missing_before_first_success :
    (runCallbacks [] (initialChunk true) = some (initialChunk true)
      ∧ runCallbacks [failedCall] (initialChunk true) = some (initialChunk true))
    ∧ (initialChunk true).size = bytesWritten [failedCall]
    ∧ (initialChunk true).terminator = some none
    ∧ (initialChunk true).terminator ≠ some (some NUL) := by
  decide

/-- C7, amended: from the initial buffer of `scrape_url` and after every
finite sequence of calls, successful or failed, that hand over `size * nmemb`
bytes each and fit `size_t`, the buffer's `size` equals the sum of
`size * nmemb` over the calls that succeeded; the byte at index `size` is 0
as soon as one call has succeeded, and while none has the buffer is still the
initial one. -/
theorem buffer_size_invariant (mallocOk : Bool) (calls : List WriteCall)
    (hcalls : ∀ c ∈ calls, c.wellFormed)
    (hfit : bytesWritten calls + 1 < SIZE_MOD) :
    ∃ mem, runCallbacks calls (initialChunk mallocOk) = some mem
      ∧ mem.size = bytesWritten calls
      ∧ ((∃ c ∈ calls, c.reallocOk = true) → mem.terminator = some (some NUL))
      ∧ ((∀ c ∈ calls, c.reallocOk = false) → mem = initialChunk mallocOk) := by
  obtain ⟨mem, hrun, hsize, _, _, hterm⟩ :=
    runCallbacks_spec calls (initialChunk mallocOk) (initialChunk_block mallocOk) hcalls
      (by simpa [initialChunk] using hfit)
  refine ⟨mem, hrun, by simpa [initialChunk] using hsize, fun h => hterm (Or.inr h), ?_⟩
  intro hall
  have hkeep : ∀ (cs : List WriteCall) (m : MemoryStruct),
      (∀ c ∈ cs, c.reallocOk = false) → runCallbacks cs m = some m := by
    intro cs
    induction cs with
    | nil => intro m _; rfl
    | cons c cs ih =>
      intro m hcs
      have hc := hcs c (List.mem_cons_self _ _)
      simp only [runCallbacks, hc, WriteMemoryCallback_failure]
      exact ih m (fun d hd => hcs d (List.mem_cons_of_mem _ hd))
  have := hkeep calls (initialChunk mallocOk) hall
  rw [hrun] at this
  exact Option.some.inj this

/-- Witness of C7 amended: a failed call followed by a successful one. -/
theorem buffer_size_invariant_witness :
    ∃ mem, runCallbacks [failedCall, goodCall] (initialChunk true) = some mem
      ∧ mem.size = bytesWritten [failedCall, goodCall]
      ∧ ((∃ c ∈ [failedCall, goodCall], c.reallocOk = true) →
          mem.terminator = some (some NUL))
      ∧ ((∀ c ∈ [failedCall, goodCall], c.reallocOk = false) → mem = initialChunk true) :=
  buffer_size_invariant true [failedCall, goodCall] (by decide) (by decide)

/-- C1: in every successful run of `scrape_url` (transfer `CURLE_OK`,
document parsed, expression evaluated to an object, output file opened) in
which the node set holds the nodes `nodes` with text contents `ts`, the run
returns and the output file holds exactly `linesOf ts`: each value followed
by one line terminator, in the order of the node set, nothing else; no other
file changes. -/
theorem scrape_url_writes_lines {Doc Node : Type} (env : Env Doc Node)
    (url tag filename : CString) (w : World) (chunk : MemoryStruct) (doc : Doc)
    (obj : XPathObject Node) (nodes : List Node) (ts : List CString)
    (hbuf : runCallbacks (env.curl_easy_perform url).calls (initialChunk env.mallocOk)
      = some chunk)
    (hres : (env.curl_easy_perform url).res = CURLE_OK)
    (hdoc : env.htmlReadMemory chunk.memory (toInt chunk.size) = some doc)
    (hobj : env.xmlXPathEvalExpression (snprintf_xpath XPATH_EXPR_SIZE tag) doc = some obj)
    (hopen : env.fopen_w w.fs filename = true)
    (hnodes : obj.nodesetval = some nodes)
    (htexts : nodes.map env.xmlNodeGetContent = ts.map some) :
    ∃ w1, scrape_url env url tag filename w = .returned w1
      ∧ w1.fs filename = some (linesOf ts)
      ∧ ∀ f, f ≠ filename → w1.fs f = w.fs f := by
  refine ⟨_, scrape_url_output env url tag filename w chunk doc obj nodes ts
    hbuf hres hdoc hobj hopen hnodes htexts, ?_, ?_⟩
  · simp [writeFile]
  · intro f hf
    simp [writeFile, hf]

/-- Witness of C1: the round-trip scenario, body
`<html><body><p>Alpha</p><p>Beta</p></body></html>` and tag `p`, leaves the
file `Alpha`, line terminator, `Beta`, line terminator. -/
theorem scrape_url_writes_lines_witness :
    linesOf ["Alpha".toList, "Beta".toList] = "Alpha\nBeta\n".toList
    ∧ ∃ w1, scrape_url alphaBetaEnv [] "p".toList outTxt emptyWorld = .returned w1
      ∧ w1.fs outTxt = some (linesOf ["Alpha".toList, "Beta".toList])
      ∧ ∀ f, f ≠ outTxt → w1.fs f = emptyWorld.fs f :=
  ⟨by decide,
    scrape_url_writes_lines alphaBetaEnv [] "p".toList outTxt emptyWorld alphaBetaChunk
      alphaBeta { nodesetval := some [0, 1] } [0, 1] ["Alpha".toList, "Beta".toList]
      (by decide) (by decide) (by decide) (by decide) (by decide) rfl (by decide)⟩

/-- C2, as stated, fails: a page whose single matched element has the text
`A`, line terminator, `B` gives a file of two lines for one match. -/
theorem line_count_exceeds_matches :
    (twoLineEnv.xmlXPathEvalExpression (snprintf_xpath XPATH_EXPR_SIZE "p".toList)
        twoLinePage).map (fun obj => obj.nodesetval.map List.length) = some (some 1)
    ∧ ((scrape_url twoLineEnv [] "p".toList outTxt emptyWorld).file outTxt).map lineCount
        = some 2 := by
  decide

/-- C2, amended: for every successful run with at least one matching
element in which no matched element's text holds a line terminator, the
output file has exactly as many lines as there are nodes in the node set. -/
theorem line_count_equals_matches {Doc Node : Type} (env : Env Doc Node)
    (url tag filename : CString) (w : World) (chunk : MemoryStruct) (doc : Doc)
    (obj : XPathObject Node) (nodes : List Node) (ts : List CString)
    (hbuf : runCallbacks (env.curl_easy_perform url).calls (initialChunk env.mallocOk)
      = some chunk)
    (hres : (env.curl_easy_perform url).res = CURLE_OK)
    (hdoc : env.htmlReadMemory chunk.memory (toInt chunk.size) = some doc)
    (hobj : env.xmlXPathEvalExpression (snprintf_xpath XPATH_EXPR_SIZE tag) doc = some obj)
    (hopen : env.fopen_w w.fs filename = true)
    (hnodes : obj.nodesetval = some nodes)
    (_hmatch : 0 < nodes.length)
    (htexts : nodes.map env.xmlNodeGetContent = ts.map some)
    (hplain : ∀ t ∈ ts, NL ∉ t) :
    ∃ w1, scrape_url env url tag filename w = .returned w1
      ∧ (w1.fs filename).map lineCount = some nodes.length := by
  refine ⟨_, scrape_url_output env url tag filename w chunk doc obj nodes ts
    hbuf hres hdoc hobj hopen hnodes htexts, ?_⟩
  have hlen : nodes.length = ts.length := by
    have := congrArg List.length htexts
    simpa using this
  simp [writeFile, lineCount_linesOf ts hplain, hlen]

/-- Witness of C2 amended: the round-trip scenario has two matches and two
lines. -/
theorem line_count_equals_matches_witness :
    ∃ w1, scrape_url alphaBetaEnv [] "p".toList outTxt emptyWorld = .returned w1
      ∧ (w1.fs outTxt).map lineCount = some [0, 1].length :=
  line_count_equals_matches alphaBetaEnv [] "p".toList outTxt emptyWorld alphaBetaChunk
    alphaBeta { nodesetval := some [0, 1] } [0, 1] ["Alpha".toList, "Beta".toList]
    (by decide) (by decide) (by decide) (by decide) (by decide) rfl (by decide) (by decide)
    (by decide)

/-- C3, as stated, fails: no tag is rejected.  For the tag `a]//*` the
expression `//a]//*` is passed to the evaluator; for the tag `p|//b` the
union `//p|//b` is evaluated and the output file is written from its
result. -/
theorem metacharacters_reach_evaluator :
    (scrape_url injectionEnv [] "a]//*".toList outTxt emptyWorld).evaluated
      = ["//a]//*".toList]
    ∧ (scrape_url injectionEnv [] "p|//b".toList outTxt emptyWorld).evaluated
      = ["//p|//b".toList]
    ∧ (scrape_url injectionEnv [] "p|//b".toList outTxt emptyWorld).file outTxt
      = some "Alpha\nBeta\n".toList := by
  decide

/-- C3, amended: `scrape_url` does not inspect the tag.  For every tag,
metacharacters or not, once the transfer is `CURLE_OK` and the document is
parsed, the expression built from the tag is passed to the evaluator; it is
the evaluator that rejects: when it returns no object the run returns, the
file system is unchanged and `Failed to evaluate XPath` is the one message
on `stderr`. -/
theorem tag_passed_unchecked {Doc Node : Type} (env : Env Doc Node)
    (url tag filename : CString) (w : World) (chunk : MemoryStruct) (doc : Doc)
    (hbuf : runCallbacks (env.curl_easy_perform url).calls (initialChunk env.mallocOk)
      = some chunk)
    (hres : (env.curl_easy_perform url).res = CURLE_OK)
    (hdoc : env.htmlReadMemory chunk.memory (toInt chunk.size) = some doc) :
    (scrape_url env url tag filename w).evaluated
        = w.evaluated ++ [snprintf_xpath XPATH_EXPR_SIZE tag]
    ∧ (env.xmlXPathEvalExpression (snprintf_xpath XPATH_EXPR_SIZE tag) doc = none →
        ∃ w1, scrape_url env url tag filename w = .returned w1
          ∧ w1.fs = w.fs
          ∧ w1.stderr = w.stderr ++ ["Failed to evaluate XPath".toList ++ [NL]]) := by
  refine ⟨scrape_url_evaluated env url tag filename w chunk doc hbuf hres hdoc, ?_⟩
  rw [scrape_url_parsed env url tag filename w chunk doc hbuf hres hdoc]
  · intro hnone
    rw [hnone]
    exact ⟨_, rfl, rfl, rfl⟩

/-- Witness of C3 amended: the tag `a]//*` on the round-trip page. -/
theorem tag_passed_unchecked_witness :
    (scrape_url injectionEnv [] "a]//*".toList outTxt emptyWorld).evaluated
        = emptyWorld.evaluated ++ [snprintf_xpath XPATH_EXPR_SIZE "a]//*".toList]
    ∧ (injectionEnv.xmlXPathEvalExpression (snprintf_xpath XPATH_EXPR_SIZE "a]//*".toList)
          alphaBeta = none →
        ∃ w1, scrape_url injectionEnv [] "a]//*".toList outTxt emptyWorld = .returned w1
          ∧ w1.fs = emptyWorld.fs
          ∧ w1.stderr = emptyWorld.stderr ++ ["Failed to evaluate XPath".toList ++ [NL]]) :=
  tag_passed_unchecked injectionEnv [] "a]//*".toList outTxt emptyWorld alphaBetaChunk
    alphaBeta (by decide) (by decide) (by decide)

/-- C4: if the transfer returns a code other than `CURLE_OK`, or the parser
returns no document for the buffer, the run returns and the file system
after it equals the file system before it. -/
theorem scrape_url_failure_keeps_files {Doc Node : Type} (env : Env Doc Node)
    (url tag filename : CString) (w : World) (chunk : MemoryStruct)
    (hbuf : runCallbacks (env.curl_easy_perform url).calls (initialChunk env.mallocOk)
      = some chunk)
    (hfail : (env.curl_easy_perform url).res ≠ CURLE_OK
      ∨ env.htmlReadMemory chunk.memory (toInt chunk.size) = none) :
    ∃ w1, scrape_url env url tag filename w = .returned w1 ∧ w1.fs = w.fs := by
  unfold scrape_url
  simp only [hbuf]
  by_cases hres : (env.curl_easy_perform url).res = CURLE_OK
  · rcases hfail with h | h
    · exact absurd hres h
    · simp only [hres, ne_eq, not_true_eq_false, if_false, h]
      exact ⟨_, rfl, rfl⟩
  · simp only [ne_eq, hres, not_false_eq_true, if_true]
    exact ⟨_, rfl, rfl⟩

/-- Witness of C4: a transfer that cannot resolve the host and a body the
parser gives up on both leave the existing output file as it was. -/
theorem scrape_url_failure_keeps_files_witness :
    (∃ w1, scrape_url unreachableEnv [] "p".toList outTxt staleWorld = .returned w1
      ∧ w1.fs = staleWorld.fs)
    ∧ (∃ w1, scrape_url garbageEnv [] "p".toList outTxt staleWorld = .returned w1
      ∧ w1.fs = staleWorld.fs) :=
  ⟨scrape_url_failure_keeps_files unreachableEnv [] "p".toList outTxt staleWorld
      (initialChunk true) (by decide) (Or.inl (by decide)),
    scrape_url_failure_keeps_files garbageEnv [] "p".toList outTxt staleWorld
      garbageChunk (by decide) (Or.inr (by decide))⟩

/-- C5, on the code: with the document parsed, the object returned and the
file opened, a present empty node set gives a run that returns and leaves the
output file empty, but an absent (null) node set makes the run fault on
`nodes->nodeNr` instead of completing. -/
theorem scrape_url_no_match {Doc Node : Type} (env : Env Doc Node)
    (url tag filename : CString) (w : World) (chunk : MemoryStruct) (doc : Doc)
    (obj : XPathObject Node)
    (hbuf : runCallbacks (env.curl_easy_perform url).calls (initialChunk env.mallocOk)
      = some chunk)
    (hres : (env.curl_easy_perform url).res = CURLE_OK)
    (hdoc : env.htmlReadMemory chunk.memory (toInt chunk.size) = some doc)
    (hobj : env.xmlXPathEvalExpression (snprintf_xpath XPATH_EXPR_SIZE tag) doc = some obj)
    (hopen : env.fopen_w w.fs filename = true) :
    (obj.nodesetval = some [] →
      ∃ w1, scrape_url env url tag filename w = .returned w1 ∧ w1.fs filename = some [])
    ∧ (obj.nodesetval = none →
      scrape_url env url tag filename w
        = .fault (w.evaluated ++ [snprintf_xpath XPATH_EXPR_SIZE tag])) := by
  rw [scrape_url_parsed env url tag filename w chunk doc hbuf hres hdoc]
  simp only [hobj, hopen, if_true]
  constructor
  · intro h
    rw [h]
    exact ⟨_, rfl, by simp [writeFile]⟩
  · intro h
    rw [h]

/-- Witness of C5: the round-trip page queried for `h1`, once with the
evaluator answering a null node set (the run faults), once with a present
empty node set (the file is empty). -/
theorem scrape_url_no_match_witness :
    scrape_url absentSetEnv [] "h1".toList outTxt emptyWorld = .fault ["//h1".toList]
    ∧ ∃ w1, scrape_url alphaBetaEnv [] "h1".toList outTxt staleWorld = .returned w1
      ∧ w1.fs outTxt = some [] :=
  ⟨(scrape_url_no_match absentSetEnv [] "h1".toList outTxt emptyWorld alphaBetaChunk
      alphaBeta { nodesetval := none } (by decide) (by decide) (by decide) (by decide)
      (by decide)).2 rfl,
    (scrape_url_no_match alphaBetaEnv [] "h1".toList outTxt staleWorld alphaBetaChunk
      alphaBeta { nodesetval := some [] } (by decide) (by decide) (by decide) (by decide)
      (by decide)).1 rfl⟩

/-- C6, as stated, fails: after a transfer that could not resolve the host
the handler shows the dialog `Scraping complete!`; the failure is a line on
`stderr` and no file is written. -/
theorem complete_dialog_after_failed_fetch :
    (unreachableEnv.curl_easy_perform []).res ≠ CURLE_OK
    ∧ on_scrape_button_clicked unreachableEnv [] "p".toList outTxt emptyWorld
      = .returned { fs := emptyWorld.fs,
                    stderr := ["curl_easy_perform() failed: error\n".toList],
                    evaluated := [],
                    dialogs := ["Scraping complete!".toList] } :=
  ⟨by decide, rfl⟩

/-- C6, amended: the dialog does not reflect the outcome.  Every run of
`on_scrape_button_clicked` that returns has shown exactly one dialog,
`Scraping complete!`; when the fetch fails, the parser returns no document,
the expression cannot be evaluated or the output file cannot be opened, the
handler still returns with that dialog, and the failure is signalled by one
message on `stderr` alone, the file system being left as it was. -/
theorem complete_dialog_whatever_outcome {Doc Node : Type} (env : Env Doc Node)
    (url tag filename : CString) (w : World) (chunk : MemoryStruct)
    (hbuf : runCallbacks (env.curl_easy_perform url).calls (initialChunk env.mallocOk)
      = some chunk) :
    (((env.curl_easy_perform url).res ≠ CURLE_OK
        ∨ env.htmlReadMemory chunk.memory (toInt chunk.size) = none
        ∨ ∃ doc, env.htmlReadMemory chunk.memory (toInt chunk.size) = some doc
            ∧ (env.xmlXPathEvalExpression (snprintf_xpath XPATH_EXPR_SIZE tag) doc = none
              ∨ ∃ obj, env.xmlXPathEvalExpression (snprintf_xpath XPATH_EXPR_SIZE tag) doc
                    = some obj
                  ∧ env.fopen_w w.fs filename = false)) →
      ∃ w1 msg, on_scrape_button_clicked env url tag filename w = .returned w1
        ∧ w1.dialogs = w.dialogs ++ [SCRAPING_COMPLETE]
        ∧ w1.stderr = w.stderr ++ [msg]
        ∧ w1.fs = w.fs)
    ∧ (∀ w1, on_scrape_button_clicked env url tag filename w = .returned w1 →
        w1.dialogs = w.dialogs ++ [SCRAPING_COMPLETE]) := by
  constructor
  · intro hfail
    by_cases hres : (env.curl_easy_perform url).res = CURLE_OK
    · rcases hfail with h | h | ⟨doc, hd, h⟩
      · exact absurd hres h
      · simp only [on_scrape_button_clicked,
          scrape_url_unparsed env url tag filename w chunk hbuf hres h]
        exact ⟨_, _, rfl, rfl, rfl, rfl⟩
      · simp only [on_scrape_button_clicked,
          scrape_url_parsed env url tag filename w chunk doc hbuf hres hd]
        rcases h with he | ⟨obj, he, ho⟩
        · simp only [he]
          exact ⟨_, _, rfl, rfl, rfl, rfl⟩
        · simp only [he, ho, Bool.false_eq_true, if_false]
          exact ⟨_, _, rfl, rfl, rfl, rfl⟩
    · simp only [on_scrape_button_clicked,
        scrape_url_unfetched env url tag filename w chunk hbuf hres]
      exact ⟨_, _, rfl, rfl, rfl, rfl⟩
  · intro w1 h
    unfold on_scrape_button_clicked at h
    rcases hs : scrape_url env url tag filename w with w0 | ev
    · simp only [hs, Run.returned.injEq] at h
      subst h
      show w0.dialogs ++ _ = _
      rw [scrape_url_keeps_dialogs env url tag filename w w0 hs]
    · simp [hs] at h

/-- Witness of C6 amended: a body the parser gives up on. -/
theorem complete_dialog_whatever_outcome_witness :
    (∃ w1 msg, on_scrape_button_clicked garbageEnv [] "p".toList outTxt staleWorld
        = .returned w1
      ∧ w1.dialogs = staleWorld.dialogs ++ [SCRAPING_COMPLETE]
      ∧ w1.stderr = staleWorld.stderr ++ [msg]
      ∧ w1.fs = staleWorld.fs)
    ∧ (∃ w1, on_scrape_button_clicked alphaBetaEnv [] "p".toList outTxt staleWorld
        = .returned w1
      ∧ w1.dialogs = staleWorld.dialogs ++ [SCRAPING_COMPLETE]) :=
  ⟨(complete_dialog_whatever_outcome garbageEnv [] "p".toList outTxt staleWorld garbageChunk
      (by decide)).1 (Or.inr (Or.inl (by decide))),
    ⟨_, rfl,
      (complete_dialog_whatever_outcome alphaBetaEnv [] "p".toList outTxt staleWorld
        alphaBetaChunk (by decide)).2 _ rfl⟩⟩

/-- C8: idempotence.  If a run of `scrape_url` returns, a second run
with the same arguments in the same environment (same response body, same
parser and evaluator answers) returns too and leaves the file system of the
first run unchanged; and when a run that returned got through to the output
(transfer `CURLE_OK`, document parsed, object returned, file opened), the
content it left in the output file is the same from any other prior world in
which the file can be opened: it does not depend on what the file held. -/
theorem scrape_url_idempotent {Doc Node : Type} (env : Env Doc Node)
    (url tag filename : CString) (w w1 : World)
    (h1 : scrape_url env url tag filename w = .returned w1) :
    (∃ w2, scrape_url env url tag filename w1 = .returned w2 ∧ w2.fs = w1.fs)
    ∧ (∀ (v : World) (chunk : MemoryStruct) (doc : Doc) (obj : XPathObject Node),
        runCallbacks (env.curl_easy_perform url).calls (initialChunk env.mallocOk)
          = some chunk →
        (env.curl_easy_perform url).res = CURLE_OK →
        env.htmlReadMemory chunk.memory (toInt chunk.size) = some doc →
        env.xmlXPathEvalExpression (snprintf_xpath XPATH_EXPR_SIZE tag) doc = some obj →
        env.fopen_w w.fs filename = true →
        env.fopen_w v.fs filename = true →
        ∃ v1, scrape_url env url tag filename v = .returned v1
          ∧ v1.fs filename = w1.fs filename) := by
  constructor
  · rcases hb : runCallbacks (env.curl_easy_perform url).calls (initialChunk env.mallocOk)
      with _ | chunk
    · simp [scrape_url, hb] at h1
    · by_cases hres : (env.curl_easy_perform url).res = CURLE_OK
      · rcases hd : env.htmlReadMemory chunk.memory (toInt chunk.size) with _ | doc
        · rw [scrape_url_unparsed env url tag filename w chunk hb hres hd] at h1
          cases h1
          rw [scrape_url_unparsed env url tag filename _ chunk hb hres hd]
          exact ⟨_, rfl, rfl⟩
        · rw [scrape_url_parsed env url tag filename w chunk doc hb hres hd] at h1
          rw [scrape_url_parsed env url tag filename w1 chunk doc hb hres hd]
          rcases he : env.xmlXPathEvalExpression (snprintf_xpath XPATH_EXPR_SIZE tag) doc
            with _ | obj
          · exact ⟨_, rfl, rfl⟩
          · rcases ho : env.fopen_w w.fs filename with _ | _
            · simp only [he, ho, Bool.false_eq_true, if_false] at h1
              cases h1
              simp only [ho, Bool.false_eq_true, if_false]
              exact ⟨_, rfl, rfl⟩
            · rcases hn : obj.nodesetval with _ | nodes
              · simp [he, ho, hn] at h1
              · rcases hw : writeNodes env.xmlNodeGetContent nodes [] with _ | text
                · simp [he, ho, hn, hw] at h1
                · simp only [he, ho, hn, hw, if_true] at h1
                  cases h1
                  simp only [hn, hw]
                  rcases ho2 : env.fopen_w (writeFile w.fs filename text) filename
                    with _ | _
                  · simp only [Bool.false_eq_true, if_false]
                    exact ⟨_, rfl, rfl⟩
                  · simp only [if_true]
                    exact ⟨_, rfl, writeFile_twice w.fs filename text⟩
      · rw [scrape_url_unfetched env url tag filename w chunk hb hres] at h1
        cases h1
        rw [scrape_url_unfetched env url tag filename _ chunk hb hres]
        exact ⟨_, rfl, rfl⟩
  · intro v chunk doc obj hb hres hd he how hov
    rw [scrape_url_parsed env url tag filename w chunk doc hb hres hd] at h1
    rw [scrape_url_parsed env url tag filename v chunk doc hb hres hd]
    simp only [he, how, if_true] at h1
    simp only [he, hov, if_true]
    rcases hn : obj.nodesetval with _ | nodes
    · simp [hn] at h1
    · rcases hw : writeNodes env.xmlNodeGetContent nodes [] with _ | text
      · simp [hn, hw] at h1
      · simp only [hn, hw] at h1
        cases h1
        simp only [hw]
        exact ⟨_, rfl, by simp [writeFile]⟩

/-- Witness of C8: the round-trip scenario run on a world whose output file
holds an older text; the second run changes nothing, and the content is the
one a run from the empty world leaves. -/
theorem scrape_url_idempotent_witness :
    (∃ w2, scrape_url alphaBetaEnv [] "p".toList outTxt
        { staleWorld with
          evaluated := staleWorld.evaluated ++ [snprintf_xpath XPATH_EXPR_SIZE "p".toList],
          fs := writeFile staleWorld.fs outTxt (linesOf ["Alpha".toList, "Beta".toList]) }
        = .returned w2
      ∧ w2.fs = writeFile staleWorld.fs outTxt (linesOf ["Alpha".toList, "Beta".toList]))
    ∧ (∃ v1, scrape_url alphaBetaEnv [] "p".toList outTxt emptyWorld = .returned v1
      ∧ v1.fs outTxt
        = writeFile staleWorld.fs outTxt (linesOf ["Alpha".toList, "Beta".toList]) outTxt) :=
  ⟨(scrape_url_idempotent alphaBetaEnv [] "p".toList outTxt staleWorld _ rfl).1,
    (scrape_url_idempotent alphaBetaEnv [] "p".toList outTxt staleWorld _ rfl).2
      emptyWorld alphaBetaChunk alphaBeta { nodesetval := some [0, 1] }
      (by decide) (by decide) (by decide) (by decide) (by decide) (by decide)⟩

/-- C9, as stated, fails: for a tag of 254 bytes the expression passed to
the evaluator is `//` followed by 253 bytes, the query for a shorter name,
not `//` followed by the whole tag. -/
theorem long_tag_is_shortened :
    longTag.length = 254
    ∧ (scrape_url alphaBetaEnv [] longTag outTxt emptyWorld).evaluated
      = ["//".toList ++ List.replicate 253 'a']
    ∧ (scrape_url alphaBetaEnv [] longTag outTxt emptyWorld).evaluated
      ≠ ["//".toList ++ longTag] := by
  decide

/-- C9, amended: for every tag name of at most 253 bytes, whenever the
transfer is `CURLE_OK` and the document is parsed, the expression passed to
the evaluator is exactly `//` followed by the whole tag name. -/
theorem short_tag_is_queried_whole {Doc Node : Type} (env : Env Doc Node)
    (url tag filename : CString) (w : World) (chunk : MemoryStruct) (doc : Doc)
    (hbuf : runCallbacks (env.curl_easy_perform url).calls (initialChunk env.mallocOk)
      = some chunk)
    (hres : (env.curl_easy_perform url).res = CURLE_OK)
    (hdoc : env.htmlReadMemory chunk.memory (toInt chunk.size) = some doc)
    (hlen : tag.length ≤ 253) :
    (scrape_url env url tag filename w).evaluated = w.evaluated ++ ["//".toList ++ tag] := by
  rw [scrape_url_evaluated env url tag filename w chunk doc hbuf hres hdoc,
    snprintf_xpath_short tag hlen]

/-- Witness of C9 amended: the tag `p` of the round-trip scenario. -/
theorem short_tag_is_queried_whole_witness :
    (scrape_url alphaBetaEnv [] "p".toList outTxt emptyWorld).evaluated
      = emptyWorld.evaluated ++ ["//".toList ++ "p".toList] :=
  short_tag_is_queried_whole alphaBetaEnv [] "p".toList outTxt emptyWorld alphaBetaChunk
    alphaBeta (by decide) (by decide) (by decide) (by decide)

end WebScraper
